import Mathlib

/-!
Verification of the AQI forecast-and-risk-scoring pipeline.

The sequence forecaster is embedded from `predict.py` (`forecast_next_hours`)
and `model.py` (`create_sequences`, `train_model`); the risk classifier from
`health_risk_classifier.py` (`HealthRiskClassifier.predict_risk`),
`health_risk_model.py` (`HealthRiskModel.predict_health_risk`) and
`health_risk_api.py` (the `/health-risk` endpoint validation).

Real numbers are modelled as rationals; the trained network / random forest is
an abstract function (its output vector is universally quantified, with the
library-guaranteed facts — e.g. that `predict_proba` rows are normalised —
taken as hypotheses).  Python exceptions are modelled with `Option` / `Except`.
-/

namespace AQI

/-! ## MinMaxScaler (sklearn), as used by predict.py / model.py

`MinMaxScaler().fit_transform(values)` with the default feature range (0,1):
`data_min_`/`data_max_` are the min/max of the fitted values, the scale
denominator is `data_max_ - data_min_` with a zero range replaced by 1
(sklearn `_handle_zeros_in_scale`), `transform v = (v - data_min_) / range`,
`inverse_transform u = u * range + data_min_`.  Fitting an empty array raises
(`Found array with 0 sample(s)`), modelled by `Option`. -/

structure MinMaxState where
  dataMin : ℚ
  dataMax : ℚ
deriving Repr, DecidableEq

def minMaxFit : List ℚ → Option MinMaxState
  | [] => none
  | v :: vs => some ⟨vs.foldl min v, vs.foldl max v⟩

def MinMaxState.range (s : MinMaxState) : ℚ :=
  if s.dataMax - s.dataMin = 0 then 1 else s.dataMax - s.dataMin

def MinMaxState.transform (s : MinMaxState) (v : ℚ) : ℚ :=
  (v - s.dataMin) / s.range

def MinMaxState.inverse (s : MinMaxState) (u : ℚ) : ℚ :=
  u * s.range + s.dataMin

/-! ## Sequence forecaster (predict.py) -/

/-- The trained keras network, abstractly: maps a window of `window_size`
scaled values to the next scaled value (`model.predict(last_seq...)[0][0]`). -/
def ForecastNet : Type := List ℚ → ℚ

/-- predict.py lines 23–29: the initial input window.  If the scaled series is
shorter than `window_size` it is left-padded with `scaled[0]` (`np.full(...,
scaled[0])` stacked above `scaled`); otherwise the last `window_size` entries
are taken (`scaled[-window_size:]`). -/
def initWindow (scaled : List ℚ) (window_size : ℕ) : List ℚ :=
  if scaled.length < window_size then
    List.replicate (window_size - scaled.length) scaled.headI ++ scaled
  else
    scaled.drop (scaled.length - window_size)

/-- predict.py lines 31–38: the prediction loop.  Each iteration appends
`pred = model(last_seq)` to the accumulator and slides the window with
`last_seq = np.append(last_seq[1:], [[pred]])`. -/
def forecastLoop (model : ForecastNet) : ℕ → List ℚ → List ℚ → List ℚ
  | 0, _, acc => acc
  | n + 1, w, acc => forecastLoop model n (w.drop 1 ++ [model w]) (acc ++ [model w])

/-- predict.py `forecast_next_hours` (the branch where a cached model was
loaded; when training runs first, the freshly trained net takes the place of
`model` and the remaining code is identical).  Fits a `MinMaxScaler` on the
series passed to THIS call, scales, builds the initial window, runs the
iterative loop, and inverse-transforms the scaled predictions. -/
def forecast_next_hours (model : ForecastNet) (aqi : List ℚ)
    (hours window_size : ℕ) : Option (List ℚ) :=
  match minMaxFit aqi with
  | none => none
  | some scaler =>
      let scaled := aqi.map scaler.transform
      let last_seq := initWindow scaled window_size
      let predictions_scaled := forecastLoop model hours last_seq []
      some (predictions_scaled.map scaler.inverse)

/-- Forecasting with an explicitly supplied scaling state (the operation the
spec describes: `forecast(model, scaling, series, horizon)`), to compare with
`forecast_next_hours`, which refits. -/
def forecastWithScaler (s : MinMaxState) (model : ForecastNet) (aqi : List ℚ)
    (hours window_size : ℕ) : List ℚ :=
  (forecastLoop model hours (initWindow (aqi.map s.transform) window_size) []).map
    s.inverse

/-- The sequence of input windows of the autoregressive loop: window 0 is the
initial window; window `k+1` drops the oldest element of window `k` and
appends the model's prediction on window `k`. -/
def windowSeq (model : ForecastNet) (w0 : List ℚ) : ℕ → List ℚ
  | 0 => w0
  | k + 1 => (windowSeq model w0 k).drop 1 ++ [model (windowSeq model w0 k)]

/-! ## Forecaster training (model.py) -/

/-- model.py `create_sequences`: for `i in range(len(data) - window_size)`,
pair the window `data[i:i+window_size]` with the target `data[i+window_size]`. -/
def create_sequences (data : List ℚ) (window_size : ℕ) :
    List (List ℚ) × List ℚ :=
  (((List.range (data.length - window_size)).map fun i =>
      (data.drop i).take window_size),
   ((List.range (data.length - window_size)).map fun i =>
      data.getD (i + window_size) 0))

inductive TrainError where
  /-- `scaler.fit_transform` on an empty array raises a `ValueError`. -/
  | emptyInput : TrainError
  /-- `model.fit` with zero training samples raises (keras rejects an empty
  training set; with `len(data) <= window_size` the pair arrays are empty and
  mis-shaped as well). -/
  | emptyTrainingSet : TrainError
deriving Repr, DecidableEq

structure TrainData where
  scaler : MinMaxState
  xTrain : List (List ℚ)
  yTrain : List ℚ
  xVal : List (List ℚ)
  yVal : List ℚ

/-- model.py `train_model` lines 50–61 (the data preparation; the keras fit on
`xTrain`/`yTrain` is abstract): fit a fresh `MinMaxScaler` on the input
series, scale, build supervised pairs, and split them chronologically at
`split_idx = int(0.85 * len(X))` — the first 85% train, the rest validate.
`int(0.85 * n)` equals `⌊85 n / 100⌋` for these magnitudes. -/
def train_model (aqi : List ℚ) (window_size : ℕ) : Except TrainError TrainData :=
  match minMaxFit aqi with
  | none => .error .emptyInput
  | some scaler =>
      let scaled := aqi.map scaler.transform
      let X := (create_sequences scaled window_size).1
      let y := (create_sequences scaled window_size).2
      let split_idx := 85 * X.length / 100
      if split_idx = 0 then .error .emptyTrainingSet
      else .ok ⟨scaler, X.take split_idx, y.take split_idx,
                X.drop split_idx, y.drop split_idx⟩

/-! ## Risk classifier (health_risk_classifier.py, health_risk_model.py,
health_risk_api.py)

Both training paths fit a 4-class random forest.  sklearn orders
`classes_` by sorting the distinct labels (`np.unique`; likewise
`LabelEncoder.fit` in health_risk_model.py sorts them), so the columns of
`predict_proba` and the output of `predict` follow the ALPHABETICALLY sorted
label order, not the declaration order `['Low','Moderate','High','Hazardous']`.
`predict` returns `classes_[np.argmax(proba)]`, and `np.argmax` returns the
index of the FIRST occurrence of the maximum. -/

/-- health_risk_classifier.py line 30: `self.risk_categories`. -/
def riskCategories : List String := ["Low", "Moderate", "High", "Hazardous"]

/-- The random forest's `classes_` (= `LabelEncoder.classes_`): the risk
labels in sorted order. -/
def modelClasses : List String := ["Hazardous", "High", "Low", "Moderate"]

/-- `np.max` of a list of rationals (only ever applied to nonempty lists;
`np.max` of an empty array raises, here the value on `[]` is an arbitrary
default). -/
def listMaxQ : List ℚ → ℚ
  | [] => 0
  | [x] => x
  | x :: y :: xs => max x (listMaxQ (y :: xs))

/-- `np.argmax`: the index of the first occurrence of the maximum. -/
def np_argmax (l : List ℚ) : ℕ := l.indexOf (listMaxQ l)

/-- The trained random forest, abstractly: maps a (scaled) feature vector to
the `predict_proba` row, a probability over the 4 classes in `modelClasses`
order. -/
def RiskNet : Type := List ℚ → List ℚ

/-- Result of `HealthRiskModel.predict_health_risk` (health_risk_model.py
lines 194–219); the fields the claims mention. -/
structure RiskPrediction where
  risk_category : String
  confidence : ℚ
  risk_score : ℚ
  all_probabilities : List (String × ℚ)
deriving Repr, DecidableEq

/-- health_risk_model.py lines 194–219, as a function of the model's
`predict_proba` row for the scaled input: `prediction_index =
model.predict(X)[0]` is the encoded class `np.argmax(proba)` (the forest was
fit on encoded labels `0..3`, so `classes_ = [0,1,2,3]`),
`risk_category = label_encoder.inverse_transform([prediction_index])[0]`,
`confidence = np.max(prediction_proba)`,
`risk_score = prediction_proba[prediction_index]`, and `all_probabilities`
maps `inverse_transform(i) ↦ proba[i]` for each `i`. -/
def predict_health_risk (proba : List ℚ) : RiskPrediction :=
  { risk_category := modelClasses.getD (np_argmax proba) ""
    confidence := listMaxQ proba
    risk_score := proba.getD (np_argmax proba) 0
    all_probabilities := modelClasses.zip proba }

/-- Result of `HealthRiskClassifier.predict_risk` (health_risk_classifier.py
lines 192–228); the SHAP fields are omitted (not referenced by any claim). -/
structure ClassifierResult where
  risk_category : String
  risk_probabilities : List (String × ℚ)
deriving Repr, DecidableEq

/-- health_risk_classifier.py lines 196–210: the feature vector, in order:
the eight environmental readings, the exposure duration, then the persona
one-hot triple. -/
structure ForecastData where
  aqi : ℚ
  pm25 : ℚ
  pm10 : ℚ
  temperature : ℚ
  humidity : ℚ
  wind_speed : ℚ
  pressure : ℚ
  visibility : ℚ
deriving Repr, DecidableEq

def buildFeatures (fd : ForecastData) (persona_type : String)
    (exposure_duration : ℚ) : List ℚ :=
  [fd.aqi, fd.pm25, fd.pm10, fd.temperature, fd.humidity, fd.wind_speed,
   fd.pressure, fd.visibility, exposure_duration,
   if persona_type = "children_elderly" then 1 else 0,
   if persona_type = "outdoor_workers" then 1 else 0,
   if persona_type = "general_public" then 1 else 0]

/-- health_risk_classifier.py lines 212–228 (`predict_risk`), as a function of
the abstract forest (feature scaling is folded into `model`):
`risk_category = self.model.predict(features_scaled)[0]` — the forest was fit
on the string labels directly, so this is `classes_[np.argmax(proba)]` — and
`risk_probabilities = dict(zip(self.risk_categories, risk_prediction))`
pairs the FIXED label list positionally with the proba row. -/
def predict_risk (model : RiskNet) (fd : ForecastData) (persona_type : String)
    (exposure_duration : ℚ) : ClassifierResult :=
  let proba := model (buildFeatures fd persona_type exposure_duration)
  { risk_category := modelClasses.getD (np_argmax proba) ""
    risk_probabilities := riskCategories.zip proba }

/-! ## API validation (health_risk_api.py `/health-risk`, lines 41–49) -/

inductive ApiError where
  /-- `'Invalid persona type'`, HTTP 400. -/
  | invalidPersona : ApiError
  /-- `'Exposure duration must be between 0 and 24 hours'`, HTTP 400. -/
  | invalidExposure : ApiError
deriving Repr, DecidableEq

def personas : List String := ["children_elderly", "outdoor_workers", "general_public"]

/-- health_risk_api.py lines 41–49: validate the persona, then the exposure
duration, then call `classifier.predict_risk`. -/
def api_predict_health_risk (model : RiskNet) (fd : ForecastData)
    (persona_type : String) (exposure_duration : ℚ) :
    Except ApiError ClassifierResult :=
  if persona_type ∉ personas then .error .invalidPersona
  else if ¬ (0 ≤ exposure_duration ∧ exposure_duration ≤ 24) then
    .error .invalidExposure
  else .ok (predict_risk model fd persona_type exposure_duration)

/-! ## Helper lemmas -/

theorem forecastLoop_length (model : ForecastNet) (n : ℕ) :
    ∀ w acc : List ℚ, (forecastLoop model n w acc).length = acc.length + n := by
  induction n with
  | zero => intro w acc; simp [forecastLoop]
  | succ n ih =>
      intro w acc
      rw [forecastLoop, ih]
      simp
      omega

theorem windowSeq_shift (model : ForecastNet) (w : List ℚ) (k : ℕ) :
    windowSeq model (w.drop 1 ++ [model w]) k = windowSeq model w (k + 1) := by
  induction k with
  | zero => rfl
  | succ k ih => rw [windowSeq, ih]; rfl

theorem forecastLoop_eq_map (model : ForecastNet) (n : ℕ) :
    ∀ w acc : List ℚ,
      forecastLoop model n w acc =
        acc ++ (List.range n).map fun k => model (windowSeq model w k) := by
  induction n with
  | zero => intro w acc; simp [forecastLoop]
  | succ n ih =>
      intro w acc
      rw [forecastLoop, ih, List.range_succ_eq_map, List.map_cons, List.map_map]
      have h0 : model (windowSeq model w 0) = model w := rfl
      have hsh : ((fun k => model (windowSeq model w k)) ∘ Nat.succ) =
          fun k => model (windowSeq model (w.drop 1 ++ [model w]) k) := by
        funext k
        simp only [Function.comp_apply]
        rw [windowSeq_shift]
      rw [h0, hsh]
      simp

theorem MinMaxState.range_ne_zero (s : MinMaxState) : s.range ≠ 0 := by
  unfold MinMaxState.range
  split
  · norm_num
  · assumption

theorem minmax_round_trip (s : MinMaxState) (v : ℚ) :
    s.inverse (s.transform v) = v := by
  unfold MinMaxState.inverse MinMaxState.transform
  rw [div_mul_cancel₀ _ s.range_ne_zero, sub_add_cancel]

theorem getD_map_range {α : Type} (f : ℕ → α) (n i : ℕ) (h : i < n) (d : α) :
    ((List.range n).map f).getD i d = f i := by
  rw [List.getD_eq_getElem _ _ (by simpa using h)]
  simp

theorem listMaxQ_mem : ∀ l : List ℚ, l ≠ [] → listMaxQ l ∈ l
  | [x], _ => by simp [listMaxQ]
  | x :: y :: xs, _ => by
      rw [listMaxQ]
      rcases max_cases x (listMaxQ (y :: xs)) with ⟨h, _⟩ | ⟨h, _⟩
      · rw [h]; exact List.mem_cons_self ..
      · rw [h]; exact List.mem_cons_of_mem _ (listMaxQ_mem (y :: xs) (by simp))

theorem le_listMaxQ : ∀ l : List ℚ, ∀ a ∈ l, a ≤ listMaxQ l
  | [x], a, h => by
      rw [List.mem_singleton] at h
      subst h
      simp only [listMaxQ]
      exact le_rfl
  | x :: y :: xs, a, h => by
      rw [listMaxQ]
      rcases List.mem_cons.mp h with rfl | h'
      · exact le_max_left a (listMaxQ (y :: xs))
      · exact le_trans (le_listMaxQ (y :: xs) a h') (le_max_right x (listMaxQ (y :: xs)))

theorem np_argmax_lt_length (l : List ℚ) (h : l ≠ []) : np_argmax l < l.length :=
  List.indexOf_lt_length.mpr (listMaxQ_mem l h)

theorem getD_np_argmax (l : List ℚ) (h : l ≠ []) :
    l.getD (np_argmax l) 0 = listMaxQ l := by
  rw [List.getD_eq_getElem _ _ (np_argmax_lt_length l h)]
  exact List.indexOf_get (np_argmax_lt_length l h)

theorem indexOf_le_of_getElem {α : Type} [DecidableEq α] (a : α) :
    ∀ (l : List α) (i : ℕ) (hi : i < l.length), l[i] = a → l.indexOf a ≤ i := by
  intro l
  induction l with
  | nil => intro i hi; simp at hi
  | cons x xs ih =>
      intro i hi hget
      cases i with
      | zero =>
          simp only [List.getElem_cons_zero] at hget
          subst hget
          simp
      | succ i =>
          rw [List.indexOf_cons]
          cases hbe : (x == a) with
          | true => simp
          | false =>
              simp only [cond_false]
              have := ih i (by simpa using hi) (by simpa using hget)
              omega

theorem np_argmax_le (l : List ℚ) (i : ℕ) (hi : i < l.length)
    (h : l.getD i 0 = listMaxQ l) : np_argmax l ≤ i := by
  refine indexOf_le_of_getElem _ l i hi ?_
  rw [← List.getD_eq_getElem l 0 hi]
  exact h

theorem length_eq_four {α : Type} (l : List α) (h : l.length = 4) :
    ∃ a b c d : α, l = [a, b, c, d] := by
  obtain _ | ⟨a, _ | ⟨b, _ | ⟨c, _ | ⟨d, _ | ⟨e, t⟩⟩⟩⟩⟩ := l
  · simp at h
  · simp at h
  · simp at h
  · simp at h
  · exact ⟨a, b, c, d, rfl⟩
  · simp at h

theorem forecast_cons (model : ForecastNet) (v : ℚ) (vs : List ℚ)
    (hours window_size : ℕ) :
    forecast_next_hours model (v :: vs) hours window_size =
      some ((forecastLoop model hours
        (initWindow ((v :: vs).map
          (MinMaxState.transform ⟨vs.foldl min v, vs.foldl max v⟩)) window_size) []).map
        (MinMaxState.inverse ⟨vs.foldl min v, vs.foldl max v⟩)) := rfl

/-! ## Claims -/

/-- C7: for every raw AQI value `v` between the fitted series' minimum and
maximum, applying the fitted scaling transform and then its inverse returns
`v` (exactly, over ℚ — hence within floating-point tolerance). -/
theorem C7_theorem (aqi : List ℚ) (s : MinMaxState) (v : ℚ)
    (hfit : minMaxFit aqi = some s) (hlo : s.dataMin ≤ v) (hhi : v ≤ s.dataMax) :
    s.inverse (s.transform v) = v :=
  minmax_round_trip s v

/-- C7 witness: the scaler fitted on `[10, 20]` round-trips `v = 15`. -/
theorem C7_witness :
    MinMaxState.inverse ⟨10, 20⟩ (MinMaxState.transform ⟨10, 20⟩ 15) = 15 :=
  C7_theorem [10, 20] ⟨10, 20⟩ 15 (by norm_num [minMaxFit]) (by norm_num) (by norm_num)

/-- C2 (amended: nonempty series): for every model, nonempty series and
horizon `1 ≤ H ≤ 24`, the forecast returns a sequence of exactly `H`
predictions. -/
theorem C2_theorem (model : ForecastNet) (aqi : List ℚ) (hours window_size : ℕ)
    (hne : aqi ≠ []) (h1 : 1 ≤ hours) (h24 : hours ≤ 24) :
    ∃ ps, forecast_next_hours model aqi hours window_size = some ps ∧
      ps.length = hours := by
  obtain ⟨v, vs, rfl⟩ := List.exists_cons_of_ne_nil hne
  refine ⟨_, forecast_cons model v vs hours window_size, ?_⟩
  rw [List.length_map, forecastLoop_length]
  simp

/-- C2 witness: a concrete 3-point series with horizon 5 yields 5 predictions. -/
theorem C2_witness :
    ∃ ps, forecast_next_hours (fun _ => 0) [1, 2, 3] 5 48 = some ps ∧
      ps.length = 5 :=
  C2_theorem (fun _ => 0) [1, 2, 3] 5 48 (by simp) (by norm_num) (by norm_num)

/-- C2 counterexample: on the EMPTY series the scaler fit raises
(`Found array with 0 sample(s)`), so no sequence of length `horizon` is
returned — the claim fails for that time series. -/
theorem C2_counterexample :
    ¬ ∃ ps, forecast_next_hours (fun _ => 0) ([] : List ℚ) 1 48 = some ps ∧
        ps.length = 1 := by
  simp [forecast_next_hours, minMaxFit]

/-- C3: after the initial window is formed, each prediction is computed from
the window obtained by dropping the oldest element of the previous window and
appending the model's own previous prediction (`windowSeq`); the predictions
are a function of the initial window alone, so the ground-truth series is
never read past its last element once iterating (any series producing the
same scaler and initial window produces the same forecast). -/
theorem C3_theorem (model : ForecastNet) (aqi : List ℚ) (hours window_size : ℕ)
    (hne : aqi ≠ []) :
    ∃ s, minMaxFit aqi = some s ∧
      forecast_next_hours model aqi hours window_size =
        some (((List.range hours).map fun k =>
          model (windowSeq model
            (initWindow (aqi.map s.transform) window_size) k)).map s.inverse) ∧
      (∀ k, windowSeq model (initWindow (aqi.map s.transform) window_size) (k + 1) =
        (windowSeq model (initWindow (aqi.map s.transform) window_size) k).drop 1 ++
          [model (windowSeq model (initWindow (aqi.map s.transform) window_size) k)]) ∧
      (∀ aqi₂ : List ℚ, minMaxFit aqi₂ = some s →
        initWindow (aqi₂.map s.transform) window_size =
          initWindow (aqi.map s.transform) window_size →
        forecast_next_hours model aqi₂ hours window_size =
          forecast_next_hours model aqi hours window_size) := by
  obtain ⟨v, vs, rfl⟩ := List.exists_cons_of_ne_nil hne
  refine ⟨⟨vs.foldl min v, vs.foldl max v⟩, rfl, ?_, fun k => rfl, ?_⟩
  · rw [forecast_cons, forecastLoop_eq_map]
    simp
  · intro aqi₂ hfit₂ hwin
    cases aqi₂ with
    | nil => simp [minMaxFit] at hfit₂
    | cons v₂ vs₂ =>
        have hs₂ : (⟨vs₂.foldl min v₂, vs₂.foldl max v₂⟩ : MinMaxState) =
            ⟨vs.foldl min v, vs.foldl max v⟩ := by
          simpa [minMaxFit] using hfit₂
        rw [forecast_cons, forecast_cons, hs₂, hwin]

/-- C3 witness: concrete model and series; the forecast equals the model
evaluated along the autoregressive window sequence, mapped back through the
scaler. -/
theorem C3_witness :
    ∃ s, minMaxFit [1, 2, 3] = some s ∧
      forecast_next_hours (fun w => w.headI) [1, 2, 3] 2 3 =
        some (((List.range 2).map fun k =>
          (fun (w : List ℚ) => w.headI) (windowSeq (fun w => w.headI)
            (initWindow ([1, 2, 3].map s.transform) 3) k)).map s.inverse) ∧
      (∀ k, windowSeq (fun w => w.headI)
            (initWindow ([1, 2, 3].map s.transform) 3) (k + 1) =
        (windowSeq (fun w => w.headI)
            (initWindow ([1, 2, 3].map s.transform) 3) k).drop 1 ++
          [(fun (w : List ℚ) => w.headI) (windowSeq (fun w => w.headI)
            (initWindow ([1, 2, 3].map s.transform) 3) k)]) ∧
      (∀ aqi₂ : List ℚ, minMaxFit aqi₂ = some s →
        initWindow (aqi₂.map s.transform) 3 =
          initWindow ([1, 2, 3].map s.transform) 3 →
        forecast_next_hours (fun w => w.headI) aqi₂ 2 3 =
          forecast_next_hours (fun w => w.headI) [1, 2, 3] 2 3) :=
  C3_theorem (fun w => w.headI) [1, 2, 3] 2 3 (by simp)

/-- C4 (amended: nonempty series): for a nonempty series shorter than
`window_size`, forecasting succeeds, the input window is left-padded with
repeated copies of the earliest scaled value, and exactly `horizon`
predictions are returned. -/
theorem C4_theorem (model : ForecastNet) (aqi : List ℚ) (hours window_size : ℕ)
    (hne : aqi ≠ []) (hshort : aqi.length < window_size) :
    ∃ s ps, minMaxFit aqi = some s ∧
      initWindow (aqi.map s.transform) window_size =
        List.replicate (window_size - aqi.length) ((aqi.map s.transform).headI) ++
          aqi.map s.transform ∧
      forecast_next_hours model aqi hours window_size = some ps ∧
      ps.length = hours := by
  obtain ⟨v, vs, rfl⟩ := List.exists_cons_of_ne_nil hne
  refine ⟨_, _, rfl, ?_, forecast_cons model v vs hours window_size, ?_⟩
  · rw [initWindow, if_pos (by simpa using hshort)]
    simp
  · rw [List.length_map, forecastLoop_length]
    simp

/-- C4 witness: a 2-point series with `window_size = 4` still yields 3
predictions from a window padded with the earliest scaled value. -/
theorem C4_witness :
    ∃ s ps, minMaxFit [5, 7] = some s ∧
      initWindow ([5, 7].map s.transform) 4 =
        List.replicate (4 - ([5, 7] : List ℚ).length)
          (([5, 7].map s.transform).headI) ++ [5, 7].map s.transform ∧
      forecast_next_hours (fun _ => 1) [5, 7] 3 4 = some ps ∧
      ps.length = 3 :=
  C4_theorem (fun _ => 1) [5, 7] 3 4 (by simp) (by norm_num)

/-- C4 counterexample: the empty series is shorter than `window_size = 48`
but forecasting raises (the scaler fit rejects an empty array, and the
padding itself reads `scaled[0]`), so the claim fails as stated for "every"
shorter series. -/
theorem C4_counterexample :
    ([] : List ℚ).length < 48 ∧
    ¬ ∃ ps, forecast_next_hours (fun _ => 0) ([] : List ℚ) 12 48 = some ps := by
  constructor
  · norm_num
  · simp [forecast_next_hours, minMaxFit]

/-- C5: training builds exactly `len(series) - window_size` supervised pairs,
the `i`-th being the `window_size` consecutive scaled values starting at `i`
together with the immediately following scaled value, and `train_model`
splits them chronologically — the first `⌊0.85 n⌋` pairs train, the rest
validate. -/
theorem C5_theorem (aqi : List ℚ) (window_size : ℕ) (s : MinMaxState)
    (hfit : minMaxFit aqi = some s) (hlen : window_size ≤ aqi.length) :
    (create_sequences (aqi.map s.transform) window_size).1.length =
        aqi.length - window_size ∧
    (create_sequences (aqi.map s.transform) window_size).2.length =
        aqi.length - window_size ∧
    (∀ i, i < aqi.length - window_size →
      (create_sequences (aqi.map s.transform) window_size).1.getD i [] =
          ((aqi.map s.transform).drop i).take window_size ∧
      (create_sequences (aqi.map s.transform) window_size).2.getD i 0 =
          (aqi.map s.transform).getD (i + window_size) 0) ∧
    (∀ td, train_model aqi window_size = .ok td →
      td.xTrain = (create_sequences (aqi.map s.transform) window_size).1.take
          (85 * (aqi.length - window_size) / 100) ∧
      td.yTrain = (create_sequences (aqi.map s.transform) window_size).2.take
          (85 * (aqi.length - window_size) / 100) ∧
      td.xVal = (create_sequences (aqi.map s.transform) window_size).1.drop
          (85 * (aqi.length - window_size) / 100) ∧
      td.yVal = (create_sequences (aqi.map s.transform) window_size).2.drop
          (85 * (aqi.length - window_size) / 100)) := by
  have hmaplen : (aqi.map s.transform).length = aqi.length := List.length_map _ _
  refine ⟨by simp [create_sequences], by simp [create_sequences], ?_, ?_⟩
  · intro i hi
    constructor
    · rw [show (create_sequences (aqi.map s.transform) window_size).1 =
          (List.range ((aqi.map s.transform).length - window_size)).map
            (fun i => ((aqi.map s.transform).drop i).take window_size) from rfl]
      rw [getD_map_range _ _ _ (by omega)]
    · rw [show (create_sequences (aqi.map s.transform) window_size).2 =
          (List.range ((aqi.map s.transform).length - window_size)).map
            (fun i => (aqi.map s.transform).getD (i + window_size) 0) from rfl]
      rw [getD_map_range _ _ _ (by omega)]
  · intro td htd
    unfold train_model at htd
    rw [hfit] at htd
    have hX : (create_sequences (aqi.map s.transform) window_size).1.length =
        aqi.length - window_size := by simp [create_sequences]
    simp only [hX] at htd
    split at htd
    · exact absurd htd (by simp)
    · have h := Except.ok.inj htd
      rw [← h]
      exact ⟨rfl, rfl, rfl, rfl⟩

/-- C5 witness: series `[0,1,2,3,4]`, `window_size = 2`: three pairs, split
2/1. -/
theorem C5_witness :
    (create_sequences (([0, 1, 2, 3, 4] : List ℚ).map
        (MinMaxState.transform ⟨0, 4⟩)) 2).1.length =
        ([0, 1, 2, 3, 4] : List ℚ).length - 2 ∧
    (create_sequences (([0, 1, 2, 3, 4] : List ℚ).map
        (MinMaxState.transform ⟨0, 4⟩)) 2).2.length =
        ([0, 1, 2, 3, 4] : List ℚ).length - 2 ∧
    (∀ i, i < ([0, 1, 2, 3, 4] : List ℚ).length - 2 →
      (create_sequences (([0, 1, 2, 3, 4] : List ℚ).map
          (MinMaxState.transform ⟨0, 4⟩)) 2).1.getD i [] =
          ((([0, 1, 2, 3, 4] : List ℚ).map (MinMaxState.transform ⟨0, 4⟩)).drop i).take 2 ∧
      (create_sequences (([0, 1, 2, 3, 4] : List ℚ).map
          (MinMaxState.transform ⟨0, 4⟩)) 2).2.getD i 0 =
          (([0, 1, 2, 3, 4] : List ℚ).map (MinMaxState.transform ⟨0, 4⟩)).getD (i + 2) 0) ∧
    (∀ td, train_model [0, 1, 2, 3, 4] 2 = .ok td →
      td.xTrain = (create_sequences (([0, 1, 2, 3, 4] : List ℚ).map
          (MinMaxState.transform ⟨0, 4⟩)) 2).1.take
          (85 * (([0, 1, 2, 3, 4] : List ℚ).length - 2) / 100) ∧
      td.yTrain = (create_sequences (([0, 1, 2, 3, 4] : List ℚ).map
          (MinMaxState.transform ⟨0, 4⟩)) 2).2.take
          (85 * (([0, 1, 2, 3, 4] : List ℚ).length - 2) / 100) ∧
      td.xVal = (create_sequences (([0, 1, 2, 3, 4] : List ℚ).map
          (MinMaxState.transform ⟨0, 4⟩)) 2).1.drop
          (85 * (([0, 1, 2, 3, 4] : List ℚ).length - 2) / 100) ∧
      td.yVal = (create_sequences (([0, 1, 2, 3, 4] : List ℚ).map
          (MinMaxState.transform ⟨0, 4⟩)) 2).2.drop
          (85 * (([0, 1, 2, 3, 4] : List ℚ).length - 2) / 100)) :=
  C5_theorem [0, 1, 2, 3, 4] 2 ⟨0, 4⟩ (by norm_num [minMaxFit]) (by norm_num)

/-- C6 (amended): training fails not only for histories of length at most
`window_size` (no supervised pairs) but also at exactly `window_size + 1`,
where the single pair is assigned to the validation segment
(`int(0.85 * 1) = 0`) and the training set is empty; it succeeds for every
history with at least `window_size + 2` observations.  (The code defines no
`InsufficientDataError`; the failures are untyped library errors.) -/
theorem C6_theorem (aqi : List ℚ) (window_size : ℕ) :
    (∃ e, train_model aqi window_size = .error e) ↔
      aqi.length ≤ window_size + 1 := by
  cases aqi with
  | nil =>
      constructor
      · intro _; simp
      · intro _; exact ⟨.emptyInput, rfl⟩
  | cons v vs =>
      have hX : (create_sequences ((v :: vs).map
          (MinMaxState.transform ⟨vs.foldl min v, vs.foldl max v⟩)) window_size).1.length =
          (v :: vs).length - window_size := by simp [create_sequences]
      have hfit : minMaxFit (v :: vs) =
          some ⟨vs.foldl min v, vs.foldl max v⟩ := rfl
      by_cases hs : 85 * ((v :: vs).length - window_size) / 100 = 0
      · have herr : train_model (v :: vs) window_size = .error .emptyTrainingSet := by
          unfold train_model
          rw [hfit]
          simp only [hX]
          rw [if_pos hs]
        rw [herr]
        rw [Nat.div_eq_zero_iff (by norm_num)] at hs
        simp only [List.length_cons] at hs ⊢
        constructor
        · intro _; omega
        · intro _; exact ⟨.emptyTrainingSet, rfl⟩
      · have hok : ∃ td, train_model (v :: vs) window_size = .ok td := by
          unfold train_model
          rw [hfit]
          simp only [hX]
          rw [if_neg hs]
          exact ⟨_, rfl⟩
        obtain ⟨td, htd⟩ := hok
        rw [htd]
        rw [Nat.div_eq_zero_iff (by norm_num)] at hs
        simp only [List.length_cons] at hs ⊢
        constructor
        · rintro ⟨e, he⟩; cases he
        · intro h; omega

/-- C6 counterexample: a history of length `window_size + 1` (here `W = 3`,
four observations) — the claim says training must not fail, but the 85/15
split leaves the training segment empty and the fit fails. -/
theorem C6_counterexample :
    3 + 1 ≤ ([1, 2, 3, 4] : List ℚ).length ∧
    train_model [1, 2, 3, 4] 3 = .error .emptyTrainingSet := by
  constructor
  · norm_num
  · unfold train_model
    rw [show minMaxFit [1, 2, 3, 4] =
        some ⟨[2, 3, 4].foldl min 1, [2, 3, 4].foldl max 1⟩ from rfl]
    norm_num [create_sequences]

/-- C9 (amended): the scaling state used by a forecast call is refit from the
series supplied to THAT call — loading a cached model does not restore the
training-time scaler — and `train_model` likewise fits its scaler from its
own input series. -/
theorem C9_theorem (model : ForecastNet) (aqi : List ℚ) (hours window_size : ℕ)
    (s : MinMaxState) (hfit : minMaxFit aqi = some s) :
    forecast_next_hours model aqi hours window_size =
      some (forecastWithScaler s model aqi hours window_size) ∧
    (∀ td W', train_model aqi W' = .ok td → td.scaler = s) := by
  constructor
  · unfold forecast_next_hours
    rw [hfit]
    rfl
  · intro td W' htd
    unfold train_model at htd
    rw [hfit] at htd
    dsimp only at htd
    split at htd
    · exact absurd htd (by simp)
    · have h := Except.ok.inj htd
      rw [← h]

/-- C9 witness: on the series `[0, 10]`, forecasting coincides with
forecasting under the explicitly supplied scaler `⟨0, 10⟩` fitted from that
same series, and training on it yields that scaler. -/
theorem C9_witness :
    forecast_next_hours (fun _ => 1) [0, 10] 1 2 =
      some (forecastWithScaler ⟨0, 10⟩ (fun _ => 1) [0, 10] 1 2) ∧
    (∀ td W', train_model [0, 10] W' = .ok td → td.scaler = ⟨0, 10⟩) :=
  C9_theorem (fun _ => 1) [0, 10] 1 2 ⟨0, 10⟩ (by norm_num [minMaxFit])

/-- C9 counterexample: a model trained on `[0, 10]` (scaler min 0, range 10)
but invoked, via the cache, on the series `[0, 20]`: the forecast call refits
on `[0, 20]` and returns 20 where the training-time scaler would give 10 —
the cached-model call does NOT use the scaling state fitted at training. -/
theorem C9_counterexample :
    minMaxFit [0, 10] = some ⟨0, 10⟩ ∧
    minMaxFit [0, 20] = some ⟨0, 20⟩ ∧
    forecast_next_hours (fun _ => 1) [0, 20] 1 2 = some [20] ∧
    forecastWithScaler ⟨0, 10⟩ (fun _ => 1) [0, 20] 1 2 = [10] ∧
    some [(20 : ℚ)] ≠ some [(10 : ℚ)] := by
  refine ⟨by norm_num [minMaxFit], by norm_num [minMaxFit], ?_, ?_, by norm_num⟩
  · rw [forecast_cons]
    norm_num [initWindow, forecastLoop, MinMaxState.transform,
      MinMaxState.inverse, MinMaxState.range]
  · norm_num [forecastWithScaler, initWindow, forecastLoop,
      MinMaxState.transform, MinMaxState.inverse, MinMaxState.range]

/-- C1 (amended): for `HealthRiskModel.predict_health_risk`, given the
forest's probability row (normalised, as sklearn guarantees), the returned
probabilities sum to 1 (hence within 1e-6), confidence is their maximum, and
`risk_category` is the argmax of the returned distribution with ties broken
toward the class earliest in the model's sorted class order (Hazardous >
High > Low > Moderate) — NOT toward the higher-severity category. -/
theorem C1_theorem (proba : List ℚ) (h4 : proba.length = 4) (hsum : proba.sum = 1) :
    |((predict_health_risk proba).all_probabilities.map Prod.snd).sum - 1| ≤
        1 / 1000000 ∧
    (predict_health_risk proba).confidence =
      listMaxQ ((predict_health_risk proba).all_probabilities.map Prod.snd) ∧
    (predict_health_risk proba).risk_category =
      modelClasses.getD (np_argmax proba) "" ∧
    (predict_health_risk proba).all_probabilities.lookup
      (predict_health_risk proba).risk_category = some (listMaxQ proba) ∧
    (∀ i, i < 4 → proba.getD i 0 = listMaxQ proba → np_argmax proba ≤ i) ∧
    (predict_health_risk proba).risk_category ∈ modelClasses := by
  obtain ⟨a, b, c, d, rfl⟩ := length_eq_four proba h4
  have hne : ([a, b, c, d] : List ℚ) ≠ [] := by simp
  have hk4 : np_argmax [a, b, c, d] < 4 := by
    have := np_argmax_lt_length [a, b, c, d] hne
    simpa using this
  have hget := getD_np_argmax [a, b, c, d] hne
  have hmap : (predict_health_risk [a, b, c, d]).all_probabilities.map Prod.snd =
      [a, b, c, d] := by
    simp [predict_health_risk, modelClasses]
  refine ⟨?_, ?_, rfl, ?_, ?_, ?_⟩
  · rw [hmap, hsum]
    norm_num
  · rw [hmap]
    rfl
  · have hlook : ∀ k, k < 4 →
        List.lookup (modelClasses.getD k "") (modelClasses.zip [a, b, c, d]) =
          some (([a, b, c, d] : List ℚ).getD k 0) := by
      intro k hk
      interval_cases k <;> simp [modelClasses, List.lookup]
    show List.lookup (modelClasses.getD (np_argmax [a, b, c, d]) "")
        (modelClasses.zip [a, b, c, d]) = some (listMaxQ [a, b, c, d])
    rw [hlook _ hk4, hget]
  · intro i hi hgd
    exact np_argmax_le [a, b, c, d] i (by simpa using hi) hgd
  · show modelClasses.getD (np_argmax [a, b, c, d]) "" ∈ modelClasses
    rw [List.getD_eq_getElem modelClasses ""
      (show np_argmax [a, b, c, d] < modelClasses.length by
        simpa [modelClasses] using hk4)]
    exact List.getElem_mem _

/-- C1 witness: a concrete normalised probability row. -/
theorem C1_witness :
    |((predict_health_risk [1/2, 1/4, 1/8, 1/8]).all_probabilities.map Prod.snd).sum -
        1| ≤ 1 / 1000000 ∧
    (predict_health_risk [1/2, 1/4, 1/8, 1/8]).confidence =
      listMaxQ ((predict_health_risk [1/2, 1/4, 1/8, 1/8]).all_probabilities.map
        Prod.snd) ∧
    (predict_health_risk [1/2, 1/4, 1/8, 1/8]).risk_category =
      modelClasses.getD (np_argmax [1/2, 1/4, 1/8, 1/8]) "" ∧
    (predict_health_risk [1/2, 1/4, 1/8, 1/8]).all_probabilities.lookup
      (predict_health_risk [1/2, 1/4, 1/8, 1/8]).risk_category =
        some (listMaxQ [1/2, 1/4, 1/8, 1/8]) ∧
    (∀ i, i < 4 → ([1/2, 1/4, 1/8, 1/8] : List ℚ).getD i 0 =
      listMaxQ [1/2, 1/4, 1/8, 1/8] → np_argmax [1/2, 1/4, 1/8, 1/8] ≤ i) ∧
    (predict_health_risk [1/2, 1/4, 1/8, 1/8]).risk_category ∈ modelClasses :=
  C1_theorem [1/2, 1/4, 1/8, 1/8] (by norm_num) (by norm_num)

/-- C1 counterexample.  `HealthRiskClassifier.predict_risk` pairs the fixed
label list positionally with the class-ordered probability row, so with row
`[0.7, 0.1, 0.1, 0.1]` (class order Hazardous, High, Low, Moderate) the
returned category "Hazardous" carries probability 0.1 in the returned
distribution while "Low" carries 0.7 — `risk_category` is not the argmax of
the returned probabilities.  And in `predict_health_risk`, a Low/Moderate
tie resolves to "Low" (first index in sorted class order), not to the
higher-severity "Moderate" the claim requires. -/
theorem C1_counterexample :
    (predict_risk (fun _ => [7/10, 1/10, 1/10, 1/10])
        ⟨100, 50, 75, 25, 60, 5, 1013, 8⟩ "general_public" 2).risk_category =
      "Hazardous" ∧
    (predict_risk (fun _ => [7/10, 1/10, 1/10, 1/10])
        ⟨100, 50, 75, 25, 60, 5, 1013, 8⟩
        "general_public" 2).risk_probabilities.lookup "Low" = some (7/10) ∧
    (predict_risk (fun _ => [7/10, 1/10, 1/10, 1/10])
        ⟨100, 50, 75, 25, 60, 5, 1013, 8⟩
        "general_public" 2).risk_probabilities.lookup "Hazardous" = some (1/10) ∧
    ((1 : ℚ) / 10 < 7 / 10) ∧
    ([0, 0, 1/2, 1/2] : List ℚ).sum = 1 ∧
    ([0, 0, 1/2, 1/2] : List ℚ).getD 2 0 = ([0, 0, 1/2, 1/2] : List ℚ).getD 3 0 ∧
    (predict_health_risk [0, 0, 1/2, 1/2]).risk_category = "Low" ∧
    "Low" ≠ "Moderate" := by
  refine ⟨?_, ?_, ?_, by norm_num, by norm_num, by norm_num, ?_, by decide⟩
  · norm_num [predict_risk, np_argmax, listMaxQ, modelClasses, List.indexOf,
      List.findIdx, List.findIdx.go, Bool.cond_eq_ite, beq_iff_eq]
  · norm_num [predict_risk, riskCategories, List.lookup]
  · norm_num [predict_risk, riskCategories, List.lookup,
      show (("Hazardous" : String) == "Low") = false from by decide,
      show (("Hazardous" : String) == "Moderate") = false from by decide,
      show (("Hazardous" : String) == "High") = false from by decide]
  · norm_num [predict_health_risk, np_argmax, listMaxQ, modelClasses,
      List.indexOf, List.findIdx, List.findIdx.go, Bool.cond_eq_ite, beq_iff_eq]

/-- C8: the `/health-risk` endpoint rejects a persona outside the known set
with the invalid-persona error, rejects (for a known persona) an exposure
duration outside [0, 24] with the invalid-exposure error, and for valid
persona and exposure raises neither, returning the classifier's result. -/
theorem C8_theorem (model : RiskNet) (fd : ForecastData) (persona_type : String)
    (exposure_duration : ℚ) :
    (persona_type ∉ personas →
      api_predict_health_risk model fd persona_type exposure_duration =
        .error .invalidPersona) ∧
    (persona_type ∈ personas →
      ¬ (0 ≤ exposure_duration ∧ exposure_duration ≤ 24) →
      api_predict_health_risk model fd persona_type exposure_duration =
        .error .invalidExposure) ∧
    (persona_type ∈ personas → 0 ≤ exposure_duration → exposure_duration ≤ 24 →
      api_predict_health_risk model fd persona_type exposure_duration =
        .ok (predict_risk model fd persona_type exposure_duration)) := by
  refine ⟨fun h => ?_, fun h hexp => ?_, fun h h0 h24 => ?_⟩
  · unfold api_predict_health_risk
    rw [if_pos h]
  · unfold api_predict_health_risk
    rw [if_neg (not_not_intro h), if_pos hexp]
  · unfold api_predict_health_risk
    rw [if_neg (not_not_intro h), if_neg (not_not_intro ⟨h0, h24⟩)]

/-- C8 witness: an unknown persona is rejected, a 25-hour exposure is
rejected, and a valid request returns the classifier result. -/
theorem C8_witness :
    api_predict_health_risk (fun _ => [1, 0, 0, 0]) ⟨100, 50, 75, 25, 60, 5, 1013, 8⟩
        "commuters" 2 = .error .invalidPersona ∧
    api_predict_health_risk (fun _ => [1, 0, 0, 0]) ⟨100, 50, 75, 25, 60, 5, 1013, 8⟩
        "general_public" 25 = .error .invalidExposure ∧
    api_predict_health_risk (fun _ => [1, 0, 0, 0]) ⟨100, 50, 75, 25, 60, 5, 1013, 8⟩
        "general_public" 2 =
      .ok (predict_risk (fun _ => [1, 0, 0, 0]) ⟨100, 50, 75, 25, 60, 5, 1013, 8⟩
        "general_public" 2) :=
  ⟨(C8_theorem _ _ _ _).1 (by decide),
   (C8_theorem _ _ _ _).2.1 (by decide) (by norm_num),
   (C8_theorem _ _ _ _).2.2 (by decide) (by norm_num) (by norm_num)⟩

/-- C10: `HealthRiskClassifier.predict_risk` builds `risk_probabilities` by
zipping the fixed label sequence `['Low','Moderate','High','Hazardous']`
positionally with the forest's probability row, whose columns follow the
model's own (sorted) class order; the labels are never reordered, so the
probability stored under the label at position `i` is the probability of the
model class at position `i`. -/
theorem C10_theorem (model : RiskNet) (fd : ForecastData) (persona_type : String)
    (exposure_duration : ℚ)
    (h4 : (model (buildFeatures fd persona_type exposure_duration)).length = 4) :
    (predict_risk model fd persona_type exposure_duration).risk_probabilities =
      riskCategories.zip (model (buildFeatures fd persona_type exposure_duration)) ∧
    (∀ i, i < 4 →
      (predict_risk model fd persona_type
          exposure_duration).risk_probabilities.lookup (riskCategories.getD i "") =
        some ((model (buildFeatures fd persona_type exposure_duration)).getD i 0)) ∧
    List.Sorted (· < ·) modelClasses ∧
    modelClasses.Perm riskCategories ∧
    riskCategories ≠ modelClasses := by
  obtain ⟨a, b, c, d, hp⟩ := length_eq_four _ h4
  refine ⟨rfl, ?_, ?_, by decide, by decide⟩
  · intro i hi
    show List.lookup (riskCategories.getD i "")
        (riskCategories.zip (model (buildFeatures fd persona_type
          exposure_duration))) = _
    rw [hp]
    interval_cases i <;> simp [riskCategories, List.lookup]
  · simp [List.sorted_cons, String.lt_iff, modelClasses]
    refine ⟨⟨?_, ?_, ?_⟩, ⟨?_, ?_⟩, ?_⟩ <;> decide

/-- C10 witness: a concrete probability row `[0.1, 0.2, 0.3, 0.4]`. -/
theorem C10_witness :
    (predict_risk (fun _ => [1/10, 1/5, 3/10, 2/5])
        ⟨45, 12, 25, 22, 55, 8, 1015, 10⟩ "general_public" 2).risk_probabilities =
      riskCategories.zip ((fun _ => [1/10, 1/5, 3/10, 2/5])
        (buildFeatures ⟨45, 12, 25, 22, 55, 8, 1015, 10⟩ "general_public" 2)) ∧
    (∀ i, i < 4 →
      (predict_risk (fun _ => [1/10, 1/5, 3/10, 2/5])
          ⟨45, 12, 25, 22, 55, 8, 1015, 10⟩
          "general_public" 2).risk_probabilities.lookup (riskCategories.getD i "") =
        some (((fun _ => [1/10, 1/5, 3/10, 2/5])
          (buildFeatures ⟨45, 12, 25, 22, 55, 8, 1015, 10⟩
            "general_public" 2) : List ℚ).getD i 0)) ∧
    List.Sorted (· < ·) modelClasses ∧
    modelClasses.Perm riskCategories ∧
    riskCategories ≠ modelClasses :=
  C10_theorem (fun _ => [1/10, 1/5, 3/10, 2/5]) ⟨45, 12, 25, 22, 55, 8, 1015, 10⟩
    "general_public" 2 (by simp)

end AQI
